import Mathlib

/-!
Verification of the credential-resolution subsystem of a Google Calendar
MCP server (`get_calendar_service` in `google_calendar_mcp_server.py`).

The resolver takes a raw credential string, tries to decode it as JSON,
classifies the decoded record (service account / OAuth token / bare token),
and either produces an authentication strategy or raises an error.

Shallow embedding conventions:
* Python/JSON values are modelled by `JValue`.  `json.loads` maps JSON
  `null` to Python `None`; `dict.get(k)` returns `None` when `k` is absent.
  Both are modelled by `JValue.null`, matching Python, where the two are
  indistinguishable by `==`, truthiness and downstream use.
* The result of `json.loads` on the raw string is passed in as an
  `Option JValue` (`none` models `json.JSONDecodeError`); the JSON grammar
  itself is external to the resolver.
* External collaborators (google-auth service-account construction, the
  credential-expiry check and the token-refresh network exchange,
  `googleapiclient.discovery.build`) are modelled by an oracle
  environment `Env`: the resolver only branches on whether they succeed.
* A Python `ValueError` raised by the resolver is a typed result
  (`Outcome.valueError` with a `CredentialError` classification carrying
  the exact message the source builds); any other exception escaping the
  resolver is `Outcome.attributeError`.
-/

namespace CalendarMCP

/-- Python/JSON values as produced by `json.loads`, plus Python `None`
(which JSON `null` decodes to). Numbers are modelled as integers. -/
inductive JValue where
  | null : JValue
  | bool (b : Bool) : JValue
  | num (n : Int) : JValue
  | str (s : String) : JValue
  | arr (elems : List JValue) : JValue
  | obj (fields : List (String × JValue)) : JValue

/-- Python truthiness (`bool(x)`): `None`, `False`, `0`, `""`, `[]`, and
an empty dict are falsy; everything else is truthy. -/
def JValue.truthy : JValue → Bool
  | .null => false
  | .bool b => b
  | .num n => n != 0
  | .str s => !s.data.isEmpty
  | .arr xs => !xs.isEmpty
  | .obj fs => !fs.isEmpty

/-- The Python type name of a value, as it appears in `AttributeError`
messages such as `'list' object has no attribute 'get'`. -/
def JValue.pyType : JValue → String
  | .null => "NoneType"
  | .bool _ => "bool"
  | .num _ => "int"
  | .str _ => "str"
  | .arr _ => "list"
  | .obj _ => "dict"

/-- First binding of key `k` in a decoded JSON object (`json.loads`
produces dicts with unique keys, so first vs last occurrence is moot). -/
def lookupField (fs : List (String × JValue)) (k : String) : Option JValue :=
  match fs with
  | [] => none
  | (k2, v) :: rest => if k2 = k then some v else lookupField rest k

/-- Python `k in d` on a dict: key presence. -/
def hasKey (fs : List (String × JValue)) (k : String) : Bool :=
  (lookupField fs k).isSome

/-- Python `d.get(k)`: the stored value, or `None` when the key is absent.
(A stored JSON `null` is also Python `None`, i.e. `JValue.null`.) -/
def pyGet (fs : List (String × JValue)) (k : String) : JValue :=
  match lookupField fs k with
  | some v => v
  | none => .null

/-- Python `d.get(k, default)`: the default applies only when the key is
absent — a key bound to `null` returns `None`, not the default. -/
def pyGetD (fs : List (String × JValue)) (k : String) (d : JValue) : JValue :=
  match lookupField fs k with
  | some v => v
  | none => d

/-- Python `a or b`: `a` if truthy, else `b`. -/
def pyOr (a b : JValue) : JValue :=
  if a.truthy then a else b

/-- Python `x == 'service_account'`: true exactly for that string (a
comparison of `None` or any non-string against a `str` is `False`). -/
def isServiceAccountType : JValue → Bool
  | .str s => s == "service_account"
  | _ => false

/-- Removal of every binding of key `k` (a dict "as if the key were
absent"). -/
def eraseKey (fs : List (String × JValue)) (k : String) : List (String × JValue) :=
  fs.filter (fun kv => kv.1 != k)

/- ### Whitespace stripping and bare-token detection -/

/-- The ASCII whitespace characters removed by Python `str.strip()`. -/
def isPyWs (c : Char) : Bool :=
  c = ' ' || c = '\t' || c = '\n' || c = '\r' || c = '\x0b' || c = '\x0c'

/-- Python `s.strip()`: leading and trailing whitespace removed. -/
def pyStripL (l : List Char) : List Char :=
  ((l.dropWhile isPyWs).reverse.dropWhile isPyWs).reverse

/-- Python `s.strip()` on strings. -/
def pyStrip (s : String) : String :=
  ⟨pyStripL s.data⟩

/-- Test that `p` is a prefix of `s` (Python
`s.startswith(p)` on the character lists). -/
def hasPref : List Char → List Char → Bool
  | _, [] => true
  | [], _ :: _ => false
  | a :: s, b :: p => a = b && hasPref s p

/-- The source's `s.startswith(('ya29.', '1//', 'ya.a0'))` test for a
bare OAuth access token. -/
def looksLikeBareToken (s : String) : Bool :=
  hasPref s.data "ya29.".data || hasPref s.data "1//".data || hasPref s.data "ya.a0".data

/- ### Strategies, errors, outcomes -/

/-- The authentication strategy a successful resolution commits to,
mirroring which credential object the source builds. `refreshed` records
whether the eager refresh in the expired case was performed. -/
inductive AuthStrategy where
  | ServiceAccount (info : List (String × JValue)) (subject : Option String) : AuthStrategy
  | StaticToken (token : JValue) : AuthStrategy
  | RefreshableOAuth (token refreshToken tokenUri clientId clientSecret : JValue)
      (refreshed : Bool) : AuthStrategy

/-- Classification of the `ValueError`s the resolver raises, each carrying
the exact message the source builds at that point. -/
inductive CredentialError where
  | MalformedInput (msg : String) : CredentialError
  | ServiceAccountInvalid (msg : String) : CredentialError
  | MissingToken (msg : String) : CredentialError
  | RefreshFailed (msg : String) : CredentialError
  | UnrecognizedShape (msg : String) : CredentialError

/-- What escapes one call of `get_calendar_service`: a built service
(with its strategy), a `ValueError` (typed), or an `AttributeError`
(raised by `.get` on a non-dict; untyped, not part of the taxonomy). -/
inductive Outcome where
  | ok (strategy : AuthStrategy) : Outcome
  | valueError (e : CredentialError) : Outcome
  | attributeError (msg : String) : Outcome

/-- Oracle environment for the external collaborators: whether
service-account construction succeeds (and the exception text when not),
whether the built refreshable credential reports itself expired, and
whether the refresh exchange succeeds (and the exception text when not). -/
structure Env where
  saOk : Bool
  saErr : String
  expired : Bool
  refreshOk : Bool
  refreshErr : String

/- ### Messages, verbatim from the source -/

/-- The four-shape usage message raised both on undecodable input with no
token prefix and on JSON of unrecognized shape. -/
def invalidFormatMsg : String :=
  "Invalid credentials format. Must be:\n1. Simple access token string: \x27ya29.a0AfH6SMB...\x27\n2. JSON with access_token: \x7b\"access_token\":\"...\"\x7d\n3. Full OAuth JSON: \x7b\"access_token\":\"...\",\"refresh_token\":\"...\",\"client_id\":\"...\",\"client_secret\":\"...\"\x7d\n4. Service Account JSON: \x7b\"type\":\"service_account\",...\x7d"

/-- Message of the `ValueError` raised when the OAuth branch finds no usable token. -/
def missingTokenMsg : String :=
  "OAuth token must contain \x27token\x27 or \x27access_token\x27 field"

/-- Message of the `ValueError` raised when the eager refresh of an
expired credential fails, wrapping the cause. -/
def refreshFailMsg (cause : String) : String :=
  "Failed to refresh expired token: " ++ cause ++ ". Please provide a new access token or check your refresh_token, client_id, and client_secret."

/-- The OAuth branch's outer `except` re-wraps any exception. -/
def oauthWrap (s : String) : String :=
  "OAuth token authentication failed: " ++ s

/-- The service-account branch's `except` wraps any exception. -/
def saWrap (s : String) : String :=
  "Service Account authentication failed: " ++ s

/-- The `token` local variable of the OAuth branch:
`creds_data.get('token') or creds_data.get('access_token')`. -/
def oauthToken (fs : List (String × JValue)) : JValue :=
  pyOr (pyGet fs "token") (pyGet fs "access_token")

/-- The `has_refresh_capability` local variable:
`refresh_token and client_id and client_secret` as a truth value. -/
def hasRefreshCapability (fs : List (String × JValue)) : Bool :=
  (pyGet fs "refresh_token").truthy && (pyGet fs "client_id").truthy &&
    (pyGet fs "client_secret").truthy

/-- The `token_uri` local variable:
`creds_data.get('token_uri', 'https://oauth2.googleapis.com/token')`. -/
def tokenUriOf (fs : List (String × JValue)) : JValue :=
  pyGetD fs "token_uri" (.str "https://oauth2.googleapis.com/token")

/- ### The resolver -/

/-- The part of `get_calendar_service` that runs after `creds_data` is a
dict: service-account branch, OAuth-token branch, or the unrecognized-shape
error (source lines 138–218). -/
def resolveRecord (fields : List (String × JValue)) (impersonateUser : Option String)
    (env : Env) : Outcome :=
  if isServiceAccountType (pyGet fields "type") then
    if env.saOk then
      .ok (.ServiceAccount fields impersonateUser)
    else
      .valueError (.ServiceAccountInvalid (saWrap env.saErr))
  else if hasKey fields "token" || hasKey fields "access_token" then
    if !(oauthToken fields).truthy then
      .valueError (.MissingToken (oauthWrap missingTokenMsg))
    else if !hasRefreshCapability fields then
      .ok (.StaticToken (oauthToken fields))
    else if env.expired then
      if env.refreshOk then
        .ok (.RefreshableOAuth (oauthToken fields) (pyGet fields "refresh_token")
          (tokenUriOf fields) (pyGet fields "client_id") (pyGet fields "client_secret") true)
      else
        .valueError (.RefreshFailed (oauthWrap (refreshFailMsg env.refreshErr)))
    else
      .ok (.RefreshableOAuth (oauthToken fields) (pyGet fields "refresh_token")
        (tokenUriOf fields) (pyGet fields "client_id") (pyGet fields "client_secret") false)
  else
    .valueError (.UnrecognizedShape invalidFormatMsg)

/-- Model of `get_calendar_service`: `decoded` is the result of
`json.loads(raw)` (`none` on `json.JSONDecodeError`).  On decode failure
the stripped input is accepted as a bare token when it carries a known
prefix; decoded non-dict JSON hits `creds_data.get('type')` and raises
`AttributeError`. -/
def resolve (raw : String) (decoded : Option JValue) (impersonateUser : Option String)
    (env : Env) : Outcome :=
  match decoded with
  | none =>
    if looksLikeBareToken (pyStrip raw) then
      resolveRecord [("access_token", .str (pyStrip raw))] impersonateUser env
    else
      .valueError (.MalformedInput invalidFormatMsg)
  | some (.obj fields) => resolveRecord fields impersonateUser env
  | some v => .attributeError ("\x27" ++ v.pyType ++ "\x27 object has no attribute \x27get\x27")

/- ### Outcome discriminators -/

/-- True iff the outcome is a success with a `RefreshableOAuth` strategy. -/
def Outcome.isRefreshableOk : Outcome → Bool
  | .ok (.RefreshableOAuth _ _ _ _ _ _) => true
  | _ => false

/-- True iff the outcome is a `RefreshFailed` error. -/
def Outcome.isRefreshFailedErr : Outcome → Bool
  | .valueError (.RefreshFailed _) => true
  | _ => false

/-- True iff the outcome is an `UnrecognizedShape` error. -/
def Outcome.isUnrecognizedShapeErr : Outcome → Bool
  | .valueError (.UnrecognizedShape _) => true
  | _ => false

/-- True iff the outcome is a `MissingToken` error. -/
def Outcome.isMissingTokenErr : Outcome → Bool
  | .valueError (.MissingToken _) => true
  | _ => false

/-- True iff the outcome is a `MalformedInput` error. -/
def Outcome.isMalformedErr : Outcome → Bool
  | .valueError (.MalformedInput _) => true
  | _ => false

/-- True iff the outcome stays inside the typed interface: a built service
or a classified `ValueError`, never an escaping `AttributeError`. -/
def Outcome.isTyped : Outcome → Bool
  | .ok _ => true
  | .valueError _ => true
  | .attributeError _ => false

/-- Either `none` or a decoded dict: the decode results for which no
`AttributeError` can arise. -/
def decodesSafely : Option JValue → Bool
  | none => true
  | some (.obj _) => true
  | some _ => false

/-- A fixed oracle environment for concrete evaluations: service-account
construction succeeds, the credential is not expired, refresh succeeds. -/
def envBase : Env :=
  { saOk := true, saErr := "bad key", expired := false, refreshOk := true,
    refreshErr := "invalid_grant" }

/-- Substring test on character lists. -/
def hasSubstr (s sub : List Char) : Bool :=
  hasPref s sub ||
    match s with
    | [] => false
    | _ :: s2 => hasSubstr s2 sub

/-- The usage message enumerates all four accepted input shapes. -/
def enumeratesFourShapes (msg : String) : Bool :=
  hasSubstr msg.data "1. Simple access token string".data &&
  hasSubstr msg.data "2. JSON with access_token".data &&
  hasSubstr msg.data "3. Full OAuth JSON".data &&
  hasSubstr msg.data "4. Service Account JSON".data

/- ### Association-list lemmas -/

theorem lookupField_cons (k3 : String) (v : JValue) (rest : List (String × JValue))
    (k : String) :
    lookupField ((k3, v) :: rest) k = if k3 = k then some v else lookupField rest k := rfl

theorem eraseKey_cons (k3 : String) (v : JValue) (rest : List (String × JValue)) (k : String) :
    eraseKey ((k3, v) :: rest) k =
      if k3 = k then eraseKey rest k else (k3, v) :: eraseKey rest k := by
  by_cases h : k3 = k <;> simp [eraseKey, List.filter_cons, h]

theorem lookupField_eraseKey_self (fs : List (String × JValue)) (k : String) :
    lookupField (eraseKey fs k) k = none := by
  induction fs with
  | nil => rfl
  | cons kv rest ih =>
    obtain ⟨k3, v⟩ := kv
    rw [eraseKey_cons]
    by_cases h : k3 = k
    · rw [if_pos h]; exact ih
    · rw [if_neg h, lookupField_cons, if_neg h]; exact ih

theorem lookupField_eraseKey_ne (fs : List (String × JValue)) (k k2 : String) (h : k2 ≠ k) :
    lookupField (eraseKey fs k) k2 = lookupField fs k2 := by
  induction fs with
  | nil => rfl
  | cons kv rest ih =>
    obtain ⟨k3, v⟩ := kv
    rw [eraseKey_cons, lookupField_cons]
    by_cases h3 : k3 = k
    · have h32 : k3 ≠ k2 := fun hh => h (hh.symm.trans h3)
      rw [if_pos h3, if_neg h32]; exact ih
    · rw [if_neg h3, lookupField_cons]
      by_cases h32 : k3 = k2
      · rw [if_pos h32, if_pos h32]
      · rw [if_neg h32, if_neg h32]; exact ih

theorem pyGet_eraseKey_self (fs : List (String × JValue)) (k : String) :
    pyGet (eraseKey fs k) k = .null := by
  simp [pyGet, lookupField_eraseKey_self]

theorem pyGet_eraseKey_ne (fs : List (String × JValue)) (k k2 : String) (h : k2 ≠ k) :
    pyGet (eraseKey fs k) k2 = pyGet fs k2 := by
  simp [pyGet, lookupField_eraseKey_ne fs k k2 h]

theorem hasKey_eraseKey_ne (fs : List (String × JValue)) (k k2 : String) (h : k2 ≠ k) :
    hasKey (eraseKey fs k) k2 = hasKey fs k2 := by
  simp [hasKey, lookupField_eraseKey_ne fs k k2 h]

theorem lookupField_eq_none_of_hasKey_false (fs : List (String × JValue)) (k : String)
    (h : hasKey fs k = false) : lookupField fs k = none := by
  cases hl : lookupField fs k with
  | none => rfl
  | some v => rw [hasKey, hl] at h; cases h

/- ### Prefix and stripping lemmas -/

theorem hasPref_iff (l p : List Char) : hasPref l p = true ↔ ∃ t, l = p ++ t := by
  induction p generalizing l with
  | nil =>
    simp only [List.nil_append]
    constructor
    · intro _; exact ⟨l, rfl⟩
    · intro _; cases l <;> rfl
  | cons b p ih =>
    cases l with
    | nil =>
      simp only [hasPref]
      constructor
      · intro h; cases h
      · rintro ⟨t, ht⟩; cases ht
    | cons a l =>
      simp only [hasPref, Bool.and_eq_true, decide_eq_true_eq, ih]
      constructor
      · rintro ⟨rfl, t, rfl⟩; exact ⟨t, rfl⟩
      · rintro ⟨t, ht⟩
        rw [List.cons_append] at ht
        injection ht with h1 h2
        exact ⟨h1, t, h2⟩

theorem hasPref_append (p t : List Char) : hasPref (p ++ t) p = true :=
  (hasPref_iff _ _).mpr ⟨t, rfl⟩

theorem hasPref_ne_nil (l : List Char) (b : Char) (p : List Char)
    (h : hasPref l (b :: p) = true) : l.isEmpty = false := by
  cases l with
  | nil => cases h
  | cons a l => rfl

theorem dropWhile_append_cons (p : Char → Bool) (a : List Char) (c : Char) (x : List Char)
    (hc : p c = false) :
    (a ++ c :: x).dropWhile p = a.dropWhile p ++ c :: x := by
  induction a with
  | nil => simp [List.dropWhile_cons, hc]
  | cons d a ih => by_cases hd : p d <;> simp [List.dropWhile_cons, hd, ih]

theorem hasPref_pyStripL (pre l : List Char)
    (hws : pre.all (fun c => !isPyWs c) = true) (hne : pre ≠ [])
    (h : hasPref l pre = true) :
    hasPref (pyStripL l) pre = true := by
  obtain ⟨t, rfl⟩ := (hasPref_iff l pre).mp h
  obtain ⟨c, pre2, rfl⟩ : ∃ c pre2, pre = c :: pre2 := by
    cases pre with
    | nil => exact absurd rfl hne
    | cons c pre2 => exact ⟨c, pre2, rfl⟩
  have hall := List.all_eq_true.mp hws
  have hc : isPyWs c = false := by
    have := hall c (List.mem_cons_self c pre2)
    simpa using this
  have step1 : ((c :: pre2) ++ t).dropWhile isPyWs = (c :: pre2) ++ t := by
    simp [List.dropWhile_cons, hc]
  obtain ⟨lc, q, hrev⟩ : ∃ lc q, (c :: pre2).reverse = lc :: q := by
    cases hr : (c :: pre2).reverse with
    | nil => exact absurd (List.reverse_eq_nil_iff.mp hr) (by simp)
    | cons lc q => exact ⟨lc, q, rfl⟩
  have hlc : isPyWs lc = false := by
    have hmem : lc ∈ (c :: pre2).reverse := by rw [hrev]; exact List.mem_cons_self lc q
    have := hall lc (List.mem_reverse.mp hmem)
    simpa using this
  have step2 : pyStripL ((c :: pre2) ++ t) =
      (c :: pre2) ++ (t.reverse.dropWhile isPyWs).reverse := by
    rw [pyStripL, step1, List.reverse_append, hrev, dropWhile_append_cons _ _ _ _ hlc,
      List.reverse_append, ← hrev, List.reverse_reverse]
  rw [step2]
  exact hasPref_append _ _

theorem looksLikeBareToken_pyStrip (raw : String) (h : looksLikeBareToken raw = true) :
    looksLikeBareToken (pyStrip raw) = true := by
  simp only [looksLikeBareToken, Bool.or_eq_true] at h ⊢
  rcases h with (h | h) | h
  · exact Or.inl (Or.inl (hasPref_pyStripL "ya29.".data raw.data (by decide) (by decide) h))
  · exact Or.inl (Or.inr (hasPref_pyStripL "1//".data raw.data (by decide) (by decide) h))
  · exact Or.inr (hasPref_pyStripL "ya.a0".data raw.data (by decide) (by decide) h)

theorem data_nonempty_of_bareToken (s : String) (h : looksLikeBareToken s = true) :
    s.data.isEmpty = false := by
  simp only [looksLikeBareToken, Bool.or_eq_true] at h
  rcases h with (h | h) | h
  · exact hasPref_ne_nil s.data 'y' "a29.".data h
  · exact hasPref_ne_nil s.data '1' "//".data h
  · exact hasPref_ne_nil s.data 'y' "a.a0".data h

/- ### Resolver-level lemmas -/

theorem resolveRecord_bare (s : String) (hs : s.data.isEmpty = false) (imp : Option String)
    (env : Env) :
    resolveRecord [("access_token", .str s)] imp env = .ok (.StaticToken (.str s)) := by
  simp [resolveRecord, pyGet, pyGetD, lookupField, hasKey, pyOr, oauthToken,
    hasRefreshCapability, isServiceAccountType, JValue.truthy, hs]

theorem resolve_stripped (raw : String) (imp : Option String) (env : Env)
    (h : looksLikeBareToken (pyStrip raw) = true) :
    resolve raw none imp env = .ok (.StaticToken (.str (pyStrip raw))) := by
  rw [resolve, if_pos h]
  exact resolveRecord_bare _ (data_nonempty_of_bareToken _ h) imp env

theorem resolveRecord_isTyped (fs : List (String × JValue)) (imp : Option String) (env : Env) :
    (resolveRecord fs imp env).isTyped = true := by
  unfold resolveRecord
  repeat' split
  all_goals rfl

/-- Closed form of `resolveRecord` when the record is not a service
account and refresh capability is absent: only the static-token and
error outcomes remain. -/
theorem resolveRecord_no_refresh (fs : List (String × JValue)) (imp : Option String) (env : Env)
    (hsa : isServiceAccountType (pyGet fs "type") = false)
    (href : hasRefreshCapability fs = false) :
    resolveRecord fs imp env =
      if (hasKey fs "token" || hasKey fs "access_token") = true then
        (if (oauthToken fs).truthy = true then .ok (.StaticToken (oauthToken fs))
         else .valueError (.MissingToken (oauthWrap missingTokenMsg)))
      else .valueError (.UnrecognizedShape invalidFormatMsg) := by
  cases hkey : (hasKey fs "token" || hasKey fs "access_token") <;>
    cases htok : (oauthToken fs).truthy <;>
      simp [resolveRecord, hsa, href, hkey, htok]

/- ### Concrete fixtures -/

/-- Decoded form of the full-OAuth scenario input. -/
def oauthFields : List (String × JValue) :=
  [("access_token", .str "tok"), ("refresh_token", .str "r"), ("client_id", .str "c"),
   ("client_secret", .str "s")]

/-- The full-OAuth scenario input text. -/
def oauthRawText : String :=
  "\x7b\"access_token\":\"tok\",\"refresh_token\":\"r\",\"client_id\":\"c\",\"client_secret\":\"s\"\x7d"

/-- A record whose refresh_token key is present but bound to the empty string. -/
def presentButEmptyFields : List (String × JValue) :=
  [("access_token", .str "t"), ("refresh_token", .str ""), ("client_id", .str "c"),
   ("client_secret", .str "s")]

/-- Input text for `presentButEmptyFields`. -/
def pbeRawText : String :=
  "\x7b\"access_token\":\"t\",\"refresh_token\":\"\",\"client_id\":\"c\",\"client_secret\":\"s\"\x7d"

/-- A service-account record that also carries a token field. -/
def saFields : List (String × JValue) :=
  [("type", .str "service_account"), ("token", .str "tok")]

/-- Input text for `saFields`. -/
def saRawText : String := "\x7b\"type\":\"service_account\",\"token\":\"tok\"\x7d"

/-- A record with both token keys present but bound to `null`. -/
def nullTokenFields : List (String × JValue) :=
  [("token", .null), ("access_token", .null)]

/-- A valid-JSON object with neither a service-account marker nor token fields. -/
def shapelessFields : List (String × JValue) := [("foo", .str "bar")]

/-- An environment in which the built credential reports itself expired
and the refresh exchange fails. -/
def envRefreshFail : Env := { envBase with expired := true, refreshOk := false }

/- ### Claims -/

/-- Claim C1 counterexample: in a record where `refresh_token`,
`client_id` and `client_secret` are all present as keys but
`refresh_token` is bound to the empty string, the resolver selects
StaticToken, not RefreshableOAuth — so presence of all three keys does
not suffice for RefreshableOAuth. -/
theorem C1_presence_counterexample :
    (hasKey presentButEmptyFields "refresh_token" = true ∧
     hasKey presentButEmptyFields "client_id" = true ∧
     hasKey presentButEmptyFields "client_secret" = true) ∧
    resolve pbeRawText (some (.obj presentButEmptyFields)) none envBase =
      .ok (.StaticToken (.str "t")) ∧
    (resolve pbeRawText (some (.obj presentButEmptyFields)) none envBase).isRefreshableOk
      = false :=
  ⟨⟨rfl, rfl, rfl⟩, rfl, rfl⟩

/-- Claim C1 (amended): on the OAuth path with a usable token,
RefreshableOAuth is selected if and only if all three of
`refresh_token`, `client_id` and `client_secret` are present with truthy
(non-empty, non-null) values; if any is absent or falsy the resolver
selects StaticToken instead; and when RefreshableOAuth is selected with
`token_uri` absent, the default token_uri
`https://oauth2.googleapis.com/token` is applied. -/
theorem C1_truthy_refresh_selection (fields : List (String × JValue)) (raw : String)
    (imp : Option String) (env : Env)
    (hsa : isServiceAccountType (pyGet fields "type") = false)
    (hkey : (hasKey fields "token" || hasKey fields "access_token") = true)
    (htok : (oauthToken fields).truthy = true) :
    (hasRefreshCapability fields = true →
      (resolve raw (some (.obj fields)) imp env =
          .ok (.RefreshableOAuth (oauthToken fields) (pyGet fields "refresh_token")
            (tokenUriOf fields) (pyGet fields "client_id") (pyGet fields "client_secret")
            env.expired) ∨
        resolve raw (some (.obj fields)) imp env =
          .valueError (.RefreshFailed (oauthWrap (refreshFailMsg env.refreshErr))))) ∧
    (hasRefreshCapability fields = false →
      resolve raw (some (.obj fields)) imp env = .ok (.StaticToken (oauthToken fields))) ∧
    (hasKey fields "token_uri" = false →
      tokenUriOf fields = .str "https://oauth2.googleapis.com/token") := by
  refine ⟨?_, ?_, ?_⟩
  · intro h
    cases h2 : env.expired with
    | false => exact Or.inl (by simp [resolve, resolveRecord, hsa, hkey, htok, h, h2])
    | true =>
      cases h3 : env.refreshOk with
      | true => exact Or.inl (by simp [resolve, resolveRecord, hsa, hkey, htok, h, h2, h3])
      | false => exact Or.inr (by simp [resolve, resolveRecord, hsa, hkey, htok, h, h2, h3])
  · intro h
    simp [resolve, resolveRecord, hsa, hkey, htok, h]
  · intro h
    rw [tokenUriOf, pyGetD, lookupField_eq_none_of_hasKey_false fields "token_uri" h]

/-- Claim C1 witness: the full-OAuth scenario record, with no
`token_uri` key, resolves to RefreshableOAuth with the default
token_uri. -/
theorem C1_truthy_refresh_selection_witness :
    (isServiceAccountType (pyGet oauthFields "type") = false ∧
     (hasKey oauthFields "token" || hasKey oauthFields "access_token") = true ∧
     (oauthToken oauthFields).truthy = true ∧
     hasRefreshCapability oauthFields = true ∧
     hasKey oauthFields "token_uri" = false) ∧
    resolve oauthRawText (some (.obj oauthFields)) none envBase =
      .ok (.RefreshableOAuth (.str "tok") (.str "r")
        (.str "https://oauth2.googleapis.com/token") (.str "c") (.str "s") false) ∧
    tokenUriOf oauthFields = .str "https://oauth2.googleapis.com/token" :=
  ⟨⟨rfl, rfl, rfl, rfl, rfl⟩, rfl,
    (C1_truthy_refresh_selection oauthFields oauthRawText none envBase rfl rfl rfl).2.2 rfl⟩

/-- Claim C2: when the decoded record's `type` equals
`"service_account"`, resolution takes the service-account path and
nothing else: the outcome is fully determined by whether service-account
construction succeeds, regardless of any `token` or `access_token`
fields, and a construction failure is a `ServiceAccountInvalid` error,
never a fall-through to the OAuth branch. -/
theorem C2_service_account_precedence (fields : List (String × JValue)) (raw : String)
    (imp : Option String) (env : Env)
    (h : isServiceAccountType (pyGet fields "type") = true) :
    resolve raw (some (.obj fields)) imp env =
      (if env.saOk then .ok (.ServiceAccount fields imp)
       else .valueError (.ServiceAccountInvalid (saWrap env.saErr))) := by
  simp [resolve, resolveRecord, h]

/-- Claim C2 witness: a service-account record that also carries a
`token` field, with failing construction, yields `ServiceAccountInvalid`
and never honors the token field. -/
theorem C2_service_account_precedence_witness :
    isServiceAccountType (pyGet saFields "type") = true ∧
    hasKey saFields "token" = true ∧
    resolve saRawText (some (.obj saFields)) none { envBase with saOk := false } =
      .valueError (.ServiceAccountInvalid (saWrap "bad key")) :=
  ⟨rfl, rfl,
    (C2_service_account_precedence saFields saRawText none { envBase with saOk := false }
      rfl).trans rfl⟩

/-- Claim C3: a RefreshableOAuth resolution whose constructed credential
is already expired eagerly refreshes; if the refresh exchange fails,
resolution fails with `RefreshFailed` carrying the cause, never a
stale-token success. -/
theorem C3_expired_refresh_failure (fields : List (String × JValue)) (raw : String)
    (imp : Option String) (env : Env)
    (hsa : isServiceAccountType (pyGet fields "type") = false)
    (hkey : (hasKey fields "token" || hasKey fields "access_token") = true)
    (htok : (oauthToken fields).truthy = true)
    (href : hasRefreshCapability fields = true)
    (hexp : env.expired = true)
    (hfail : env.refreshOk = false) :
    resolve raw (some (.obj fields)) imp env =
      .valueError (.RefreshFailed (oauthWrap (refreshFailMsg env.refreshErr))) := by
  simp [resolve, resolveRecord, hsa, hkey, htok, href, hexp, hfail]

/-- Claim C3 witness: the spec's scenario — the full-OAuth input with an
already-expired token and a forced refresh failure — yields
`RefreshFailed`, not a stale-token success. -/
theorem C3_expired_refresh_failure_witness :
    (isServiceAccountType (pyGet oauthFields "type") = false ∧
     (hasKey oauthFields "token" || hasKey oauthFields "access_token") = true ∧
     (oauthToken oauthFields).truthy = true ∧
     hasRefreshCapability oauthFields = true ∧
     envRefreshFail.expired = true ∧ envRefreshFail.refreshOk = false) ∧
    resolve oauthRawText (some (.obj oauthFields)) none envRefreshFail =
      .valueError (.RefreshFailed (oauthWrap (refreshFailMsg "invalid_grant"))) :=
  ⟨⟨rfl, rfl, rfl, rfl, rfl, rfl⟩,
    C3_expired_refresh_failure oauthFields oauthRawText none envRefreshFail
      rfl rfl rfl rfl rfl rfl⟩

/-- Claim C4 counterexample: the undecodable input `"ya29.abc "`
(trailing space) starts with the prefix `ya29.`, but resolves to
StaticToken with the stripped token `"ya29.abc"`, which differs from the
input — the token is not preserved unmodified. -/
theorem C4_strip_modifies_token :
    hasPref "ya29.abc ".data "ya29.".data = true ∧
    resolve "ya29.abc " none none envBase = .ok (.StaticToken (.str "ya29.abc")) ∧
    ("ya29.abc" : String) ≠ "ya29.abc " :=
  ⟨rfl, rfl, by decide⟩

/-- Claim C4 (amended): every input that is not decodable as JSON but
starts with one of the prefixes `ya29.`, `1//` or `ya.a0` resolves to
StaticToken whose token is the whitespace-stripped input (equal to the
input whenever the input carries no surrounding whitespace); in
particular `"ya29.abc123"` resolves to StaticToken `"ya29.abc123"`. -/
theorem C4_bare_token_static (raw : String) (imp : Option String) (env : Env)
    (h : looksLikeBareToken raw = true) :
    resolve raw none imp env = .ok (.StaticToken (.str (pyStrip raw))) :=
  resolve_stripped raw imp env (looksLikeBareToken_pyStrip raw h)

/-- Claim C4 witness: the spec scenario `"ya29.abc123"`, where stripping
is the identity, resolves to StaticToken with the token unmodified. -/
theorem C4_bare_token_static_witness :
    looksLikeBareToken "ya29.abc123" = true ∧
    resolve "ya29.abc123" none none envBase = .ok (.StaticToken (.str "ya29.abc123")) ∧
    pyStrip "ya29.abc123" = "ya29.abc123" :=
  ⟨rfl, C4_bare_token_static "ya29.abc123" none envBase rfl, rfl⟩

/-- Claim C5 counterexample: the undecodable input `" ya29.abc"`
(leading space) does not start with any of the recognized prefixes, yet
resolution succeeds with StaticToken rather than failing with
`MalformedInput`, because the source tests the prefix on the stripped
input. -/
theorem C5_leading_space_accepted :
    looksLikeBareToken " ya29.abc" = false ∧
    resolve " ya29.abc" none none envBase = .ok (.StaticToken (.str "ya29.abc")) ∧
    (resolve " ya29.abc" none none envBase).isMalformedErr = false :=
  ⟨rfl, rfl, rfl⟩

set_option maxRecDepth 10000 in
/-- Claim C5 (amended): every input that is not decodable as JSON and
whose whitespace-stripped form does not start with any of the prefixes
`ya29.`, `1//` or `ya.a0` fails with `MalformedInput`, whose message
enumerates all four accepted input shapes; in particular
`'not json and no prefix'` fails with `MalformedInput`. -/
theorem C5_malformed_input (raw : String) (imp : Option String) (env : Env)
    (h : looksLikeBareToken (pyStrip raw) = false) :
    resolve raw none imp env = .valueError (.MalformedInput invalidFormatMsg) ∧
    enumeratesFourShapes invalidFormatMsg = true :=
  ⟨by simp [resolve, h], by rfl⟩

/-- Claim C5 witness: the spec scenario `'not json and no prefix'`. -/
theorem C5_malformed_input_witness :
    looksLikeBareToken (pyStrip "not json and no prefix") = false ∧
    (resolve "not json and no prefix" none none envBase =
        .valueError (.MalformedInput invalidFormatMsg) ∧
      enumeratesFourShapes invalidFormatMsg = true) :=
  ⟨rfl, C5_malformed_input "not json and no prefix" none envBase rfl⟩

/-- Claim C6 counterexample: the input `"[1, 2]"` decodes as valid JSON
and contains neither a service-account marker nor token fields, yet
resolution does not fail with `UnrecognizedShape` — it raises an
untyped `AttributeError` from `.get` on a list. -/
theorem C6_nonobject_json_fault :
    (resolve "[1, 2]" (some (.arr [.num 1, .num 2])) none envBase).isUnrecognizedShapeErr
      = false ∧
    resolve "[1, 2]" (some (.arr [.num 1, .num 2])) none envBase =
      .attributeError "\x27list\x27 object has no attribute \x27get\x27" :=
  ⟨rfl, rfl⟩

/-- Claim C6 (amended): every input that decodes as a JSON object
containing neither a `type` field equal to `"service_account"` nor a
`token` field nor an `access_token` field fails with
`UnrecognizedShape`; inputs decoding to non-object JSON instead raise an
untyped `AttributeError`. -/
theorem C6_unrecognized_shape (fields : List (String × JValue)) (raw : String)
    (imp : Option String) (env : Env)
    (hsa : isServiceAccountType (pyGet fields "type") = false)
    (h1 : hasKey fields "token" = false)
    (h2 : hasKey fields "access_token" = false) :
    resolve raw (some (.obj fields)) imp env =
      .valueError (.UnrecognizedShape invalidFormatMsg) := by
  simp [resolve, resolveRecord, hsa, h1, h2]

/-- Claim C6 witness: a JSON object with an unrelated field fails with
`UnrecognizedShape`. -/
theorem C6_unrecognized_shape_witness :
    (isServiceAccountType (pyGet shapelessFields "type") = false ∧
     hasKey shapelessFields "token" = false ∧
     hasKey shapelessFields "access_token" = false) ∧
    resolve "\x7b\"foo\":\"bar\"\x7d" (some (.obj shapelessFields)) none envBase =
      .valueError (.UnrecognizedShape invalidFormatMsg) :=
  ⟨⟨rfl, rfl, rfl⟩,
    C6_unrecognized_shape shapelessFields "\x7b\"foo\":\"bar\"\x7d" none envBase rfl rfl rfl⟩

/-- Claim C7: on the OAuth path the usable token is extracted preferring
the `token` field and falling back to `access_token`; when the
extraction yields no usable token (in particular when both fields are
absent or null, as far as the path allows), resolution fails with
`MissingToken`, and with a usable token it never does. -/
theorem C7_token_extraction (fields : List (String × JValue)) (raw : String)
    (imp : Option String) (env : Env)
    (hsa : isServiceAccountType (pyGet fields "type") = false)
    (hkey : (hasKey fields "token" || hasKey fields "access_token") = true) :
    ((pyGet fields "token").truthy = true → oauthToken fields = pyGet fields "token") ∧
    ((pyGet fields "token").truthy = false → oauthToken fields = pyGet fields "access_token") ∧
    ((oauthToken fields).truthy = false →
      resolve raw (some (.obj fields)) imp env =
        .valueError (.MissingToken (oauthWrap missingTokenMsg))) ∧
    ((oauthToken fields).truthy = true →
      (resolve raw (some (.obj fields)) imp env).isMissingTokenErr = false) := by
  refine ⟨?_, ?_, ?_, ?_⟩
  · intro h; simp [oauthToken, pyOr, h]
  · intro h; simp [oauthToken, pyOr, h]
  · intro h; simp [resolve, resolveRecord, hsa, hkey, h]
  · intro h
    cases h1 : hasRefreshCapability fields <;> cases h2 : env.expired <;>
      cases h3 : env.refreshOk <;>
        simp [resolve, resolveRecord, hsa, hkey, h, h1, h2, h3, Outcome.isMissingTokenErr]

/-- Claim C7 witness: a record where both `token` and `access_token`
are bound to `null` — no usable token — fails with `MissingToken`. -/
theorem C7_token_extraction_witness :
    ((hasKey nullTokenFields "token" || hasKey nullTokenFields "access_token") = true ∧
     (oauthToken nullTokenFields).truthy = false) ∧
    resolve "\x7b\"token\":null,\"access_token\":null\x7d" (some (.obj nullTokenFields))
        none envBase =
      .valueError (.MissingToken (oauthWrap missingTokenMsg)) :=
  ⟨⟨rfl, rfl⟩,
    (C7_token_extraction nullTokenFields "\x7b\"token\":null,\"access_token\":null\x7d"
      none envBase rfl rfl).2.2.1 rfl⟩

/-- Claim C8 counterexample: the input `"5"` is valid JSON, but
resolution neither succeeds nor fails with a typed `CredentialError`: an
untyped `AttributeError` escapes the resolver boundary. -/
theorem C8_untyped_fault_escapes :
    (resolve "5" (some (.num 5)) none envBase).isTyped = false ∧
    resolve "5" (some (.num 5)) none envBase =
      .attributeError "\x27int\x27 object has no attribute \x27get\x27" :=
  ⟨rfl, rfl⟩

/-- Claim C8 (amended): for every input that either fails JSON decoding
or decodes to a JSON object, resolution either succeeds or fails with a
typed `CredentialError`; inputs decoding to non-object JSON (null,
boolean, number, string or array) instead raise an untyped
`AttributeError` that escapes the resolver. -/
theorem C8_typed_results (raw : String) (decoded : Option JValue) (imp : Option String)
    (env : Env) (h : decodesSafely decoded = true) :
    (resolve raw decoded imp env).isTyped = true := by
  cases decoded with
  | none =>
    simp only [resolve]
    split
    · exact resolveRecord_isTyped _ imp env
    · rfl
  | some v =>
    cases v with
    | obj fs => exact resolveRecord_isTyped fs imp env
    | null => simp [decodesSafely] at h
    | bool b => simp [decodesSafely] at h
    | num n => simp [decodesSafely] at h
    | str s => simp [decodesSafely] at h
    | arr xs => simp [decodesSafely] at h

/-- Claim C8 witness: an undecodable input and a decoded object both
yield typed results. -/
theorem C8_typed_results_witness :
    decodesSafely (some (.obj oauthFields)) = true ∧
    (resolve oauthRawText (some (.obj oauthFields)) none envBase).isTyped = true :=
  ⟨rfl, C8_typed_results oauthRawText (some (.obj oauthFields)) none envBase rfl⟩

/-- Claim C9: on the OAuth path, refresh capability is decided by
truthiness, not key presence: a record binding one of `refresh_token`,
`client_id`, `client_secret` to the empty string or `null` resolves
exactly as if that key were absent — StaticToken when the token is
usable, never RefreshableOAuth, and never a refresh-related error. -/
theorem C9_truthiness_not_presence (fields : List (String × JValue)) (raw : String)
    (imp : Option String) (env : Env) (k : String)
    (hk : k = "refresh_token" ∨ k = "client_id" ∨ k = "client_secret")
    (hsa : isServiceAccountType (pyGet fields "type") = false)
    (hv : lookupField fields k = some (.str "") ∨ lookupField fields k = some .null) :
    resolve raw (some (.obj fields)) imp env =
      resolve raw (some (.obj (eraseKey fields k))) imp env ∧
    (resolve raw (some (.obj fields)) imp env).isRefreshableOk = false ∧
    (resolve raw (some (.obj fields)) imp env).isRefreshFailedErr = false ∧
    ((hasKey fields "token" || hasKey fields "access_token") = true →
      (oauthToken fields).truthy = true →
      resolve raw (some (.obj fields)) imp env = .ok (.StaticToken (oauthToken fields))) := by
  have hkv : (pyGet fields k).truthy = false := by
    rcases hv with h | h <;> simp [pyGet, h, JValue.truthy]
  have href : hasRefreshCapability fields = false := by
    rcases hk with rfl | rfl | rfl <;> simp [hasRefreshCapability, hkv]
  have hrefE : hasRefreshCapability (eraseKey fields k) = false := by
    rcases hk with rfl | rfl | rfl <;>
      simp [hasRefreshCapability, pyGet_eraseKey_self, JValue.truthy]
  have htype : pyGet (eraseKey fields k) "type" = pyGet fields "type" := by
    rcases hk with rfl | rfl | rfl <;> exact pyGet_eraseKey_ne _ _ _ (by decide)
  have hTok : pyGet (eraseKey fields k) "token" = pyGet fields "token" := by
    rcases hk with rfl | rfl | rfl <;> exact pyGet_eraseKey_ne _ _ _ (by decide)
  have hAcc : pyGet (eraseKey fields k) "access_token" = pyGet fields "access_token" := by
    rcases hk with rfl | rfl | rfl <;> exact pyGet_eraseKey_ne _ _ _ (by decide)
  have hKT : hasKey (eraseKey fields k) "token" = hasKey fields "token" := by
    rcases hk with rfl | rfl | rfl <;> exact hasKey_eraseKey_ne _ _ _ (by decide)
  have hKA : hasKey (eraseKey fields k) "access_token" = hasKey fields "access_token" := by
    rcases hk with rfl | rfl | rfl <;> exact hasKey_eraseKey_ne _ _ _ (by decide)
  have hOTok : oauthToken (eraseKey fields k) = oauthToken fields := by
    rw [oauthToken, oauthToken, hTok, hAcc]
  refine ⟨?_, ?_, ?_, ?_⟩
  · show resolveRecord fields imp env = resolveRecord (eraseKey fields k) imp env
    rw [resolveRecord_no_refresh fields imp env hsa href,
      resolveRecord_no_refresh (eraseKey fields k) imp env (by rw [htype]; exact hsa) hrefE,
      hKT, hKA, hOTok]
  · show (resolveRecord fields imp env).isRefreshableOk = false
    rw [resolveRecord_no_refresh fields imp env hsa href]
    split
    · split <;> rfl
    · rfl
  · show (resolveRecord fields imp env).isRefreshFailedErr = false
    rw [resolveRecord_no_refresh fields imp env hsa href]
    split
    · split <;> rfl
    · rfl
  · intro hkey htok
    show resolveRecord fields imp env = _
    rw [resolveRecord_no_refresh fields imp env hsa href, if_pos hkey, if_pos htok]

/-- Claim C9 witness: a record whose `refresh_token` is present but
empty resolves identically to the record with that key removed, as
StaticToken. -/
theorem C9_truthiness_not_presence_witness :
    (lookupField presentButEmptyFields "refresh_token" = some (.str "") ∧
     isServiceAccountType (pyGet presentButEmptyFields "type") = false) ∧
    resolve pbeRawText (some (.obj presentButEmptyFields)) none envBase =
      resolve pbeRawText (some (.obj (eraseKey presentButEmptyFields "refresh_token")))
        none envBase ∧
    (resolve pbeRawText (some (.obj presentButEmptyFields)) none envBase).isRefreshableOk
      = false ∧
    resolve pbeRawText (some (.obj presentButEmptyFields)) none envBase =
      .ok (.StaticToken (.str "t")) := by
  refine ⟨⟨rfl, rfl⟩, ?_, ?_, ?_⟩
  · exact (C9_truthiness_not_presence presentButEmptyFields pbeRawText none envBase
      "refresh_token" (Or.inl rfl) rfl (Or.inl rfl)).1
  · exact (C9_truthiness_not_presence presentButEmptyFields pbeRawText none envBase
      "refresh_token" (Or.inl rfl) rfl (Or.inl rfl)).2.1
  · exact (C9_truthiness_not_presence presentButEmptyFields pbeRawText none envBase
      "refresh_token" (Or.inl rfl) rfl (Or.inl rfl)).2.2.2 rfl rfl

/-- Claim C10: every input that is not decodable as JSON and whose
whitespace-stripped form starts with one of the prefixes `ya29.`, `1//`
or `ya.a0` resolves to StaticToken whose token is the
whitespace-stripped input — inputs with surrounding whitespace are
accepted, and the resolved token then differs from the raw input. -/
theorem C10_stripped_bare_token (raw : String) (imp : Option String) (env : Env)
    (h : looksLikeBareToken (pyStrip raw) = true) :
    resolve raw none imp env = .ok (.StaticToken (.str (pyStrip raw))) :=
  resolve_stripped raw imp env h

/-- Claim C10 witness: `" ya29.abc123 "` is accepted although the raw
input starts with a space, and the resolved token is the stripped form,
different from the raw input. -/
theorem C10_stripped_bare_token_witness :
    looksLikeBareToken (pyStrip " ya29.abc123 ") = true ∧
    resolve " ya29.abc123 " none none envBase = .ok (.StaticToken (.str "ya29.abc123")) ∧
    pyStrip " ya29.abc123 " ≠ " ya29.abc123 " :=
  ⟨rfl, C10_stripped_bare_token " ya29.abc123 " none envBase rfl, by decide⟩

end CalendarMCP
